import Mathlib

/-!
Verification development for the StockPulse core: the multi-factor scoring
engine, the digest selector, the prediction ledger with its three-horizon
verification passes, the statistics aggregator with the unlock gate, the
technical range-position indicator and the headline sentiment analyzer.

Python floats are modelled as rationals (`ℚ`); Python's `round(x, k)`
(round-half-to-even) is modelled exactly; Python truthiness tests on
nullable floats (`if x:`) are modelled as `x ≠ none ∧ x ≠ some 0`;
functions that can raise return `Option`/`Except`.
-/

namespace StockPulse

/-- Python's `round` to an integer: round half to even (banker's rounding). -/
def roundHalfEven (q : ℚ) : ℤ :=
  let f : ℤ := ⌊q⌋
  let r : ℚ := q - f
  if r < 1/2 then f
  else if 1/2 < r then f + 1
  else if f % 2 = 0 then f else f + 1

/-- Python's `round(x, 2)`. -/
def round2 (q : ℚ) : ℚ := (roundHalfEven (q * 100) : ℚ) / 100

/-- Python's `round(x, 1)`. -/
def round1 (q : ℚ) : ℚ := (roundHalfEven (q * 10) : ℚ) / 10

/-! ## Scoring engine (services/scoring.py) -/

/-- `WEIGHTS["technical"]` = 0.40. -/
def weightTechnical : ℚ := 40/100

/-- `WEIGHTS["sentiment"]` = 0.30. -/
def weightSentiment : ℚ := 30/100

/-- `WEIGHTS["fundamental"]` = 0.30. -/
def weightFundamental : ℚ := 30/100

/-- `combined_score` in `calculate_score` (scoring.py lines 217-221). -/
def combinedScore (t s f : ℚ) : ℚ :=
  t * weightTechnical + s * weightSentiment + f * weightFundamental

/-- `final_score = combined_score * 100` (scoring.py line 224). -/
def finalScore (t s f : ℚ) : ℚ := combinedScore t s f * 100

/-- `get_signal_from_score` (scoring.py lines 119-130). -/
def getSignalFromScore (score : ℚ) : String :=
  if 60 ≤ score then "Strong Buy"
  else if 30 ≤ score then "Buy"
  else if -30 ≤ score then "Hold"
  else if -60 ≤ score then "Sell"
  else "Strong Sell"

/-! ## Digest selector (services/digest_generator.py) -/

/-- The fields of scoring.py's `StockScore` that the digest selector and the
prediction logger read. -/
structure StockScoreM where
  ticker : String := ""
  name : String := ""
  score : ℚ := 0
  currentPrice : Option ℚ := none
  error : Option String := none
deriving DecidableEq

/-- Insert into a descending-sorted list, before the first element whose score
is not strictly larger; `sortDesc` below is then the stable descending sort
performed by Python's `sorted(valid_scores, key=lambda x: x.score, reverse=True)`
(digest_generator.py line 74): ties keep their original relative order. -/
def insertDesc (x : StockScoreM) : List StockScoreM → List StockScoreM
  | [] => [x]
  | y :: ys => if x.score < y.score then y :: insertDesc x ys else x :: y :: ys

/-- Stable sort by score descending (digest_generator.py line 74). -/
def sortDesc (l : List StockScoreM) : List StockScoreM := l.foldr insertDesc []

/-- `select_top_picks` (digest_generator.py lines 59-83).  The Python tail
slice `sorted_scores[-top_n:]` is the whole list when `top_n = 0`, hence the
`if` in the sell branch. -/
def selectTopPicks (scores : List StockScoreM) (topN : ℕ) :
    List StockScoreM × List StockScoreM :=
  let validScores := scores.filter (fun s => s.error = none)
  let sortedScores := sortDesc validScores
  let buyPicks := (sortedScores.take topN).filter (fun s => 0 < s.score)
  let tailSlice :=
    if topN = 0 then sortedScores else sortedScores.drop (sortedScores.length - topN)
  let sellPicks := (tailSlice.filter (fun s => s.score < 0)).reverse
  (buyPicks, sellPicks)

/-! ## Prediction ledger and verification
(models/prediction.py, services/verification.py, services/market_data.py) -/

/-- The three verification horizons (1, 7, 30 days). -/
inductive Horizon where
  | d1
  | d7
  | d30
deriving DecidableEq

/-- Maturity delay of a horizon, in days. -/
def Horizon.days : Horizon → ℤ
  | .d1 => 1
  | .d7 => 7
  | .d30 => 30

/-- The `"1d"`/`"7d"`/`"30d"` tag used in `run_verification` error messages. -/
def Horizon.tag : Horizon → String
  | .d1 => "1d"
  | .d7 => "7d"
  | .d30 => "30d"

/-- models/prediction.py `Prediction`; timestamps are whole days (`ℤ`). -/
structure Prediction where
  ticker : String := ""
  companyName : String := ""
  direction : String := "buy"
  score : ℚ := 0
  predictionDate : ℤ := 0
  priceAtPrediction : ℚ := 0
  priceAfter1d : Option ℚ := none
  verified1d : Bool := false
  correct1d : Option Bool := none
  return1d : Option ℚ := none
  priceAfter7d : Option ℚ := none
  verified7d : Bool := false
  correct7d : Option Bool := none
  return7d : Option ℚ := none
  priceAfter30d : Option ℚ := none
  verified30d : Bool := false
  correct30d : Option Bool := none
  return30d : Option ℚ := none
deriving DecidableEq

/-- `verified_h` of a horizon. -/
def Prediction.verifiedH (p : Prediction) : Horizon → Bool
  | .d1 => p.verified1d
  | .d7 => p.verified7d
  | .d30 => p.verified30d

/-- `correct_h` of a horizon. -/
def Prediction.correctH (p : Prediction) : Horizon → Option Bool
  | .d1 => p.correct1d
  | .d7 => p.correct7d
  | .d30 => p.correct30d

/-- `return_h` of a horizon. -/
def Prediction.returnH (p : Prediction) : Horizon → Option ℚ
  | .d1 => p.return1d
  | .d7 => p.return7d
  | .d30 => p.return30d

/-- `price_after_h` of a horizon. -/
def Prediction.priceAfterH (p : Prediction) : Horizon → Option ℚ
  | .d1 => p.priceAfter1d
  | .d7 => p.priceAfter7d
  | .d30 => p.priceAfter30d

/-- The per-horizon verification field group
(`price_after_h`, `verified_h`, `correct_h`, `return_h`). -/
def Prediction.hFields (p : Prediction) (h : Horizon) :
    Option ℚ × Bool × Option Bool × Option ℚ :=
  (p.priceAfterH h, p.verifiedH h, p.correctH h, p.returnH h)

/-- market_data.py `StockData`, restricted to the fields verification reads.
`fetch_stock_data` never raises: every failure comes back as an `error`
string with no price (market_data.py lines 64-94). -/
structure StockData where
  price : Option ℚ := none
  error : Option String := none
deriving DecidableEq

/-- Python truthiness of a nullable float: `if x:` keeps a non-null, non-zero
value (used for `stock_data.price`, `pick.current_price`, `p.return_h`). -/
def truthyQ (p : Option ℚ) : Option ℚ :=
  match p with
  | some v => if v = 0 then none else some v
  | none => none

/-- Result dict of `verify_prediction`. -/
structure VerifyResult where
  correct : Bool
  returnPct : ℚ
  currentPrice : ℚ
deriving DecidableEq

/-- `verify_prediction` (verification.py lines 41-65).  Python raises
ZeroDivisionError when `price_at_prediction` is 0, modelled as `none`; the
returned percentage is `round(actual_return, 2)`; any direction other than
`"buy"` takes the sell branch. -/
def verifyPrediction (pred : Prediction) (currentPrice : ℚ) : Option VerifyResult :=
  if pred.priceAtPrediction = 0 then none
  else
    let priceChange := currentPrice - pred.priceAtPrediction
    let returnPct := priceChange / pred.priceAtPrediction * 100
    if pred.direction = "buy" then
      some { correct := decide (0 < priceChange), returnPct := round2 returnPct,
             currentPrice := currentPrice }
    else
      some { correct := decide (priceChange < 0), returnPct := round2 (-returnPct),
             currentPrice := currentPrice }

/-- Write one horizon's fields after a successful verification
(verification.py lines 97-100 / 119-122 / 141-144). -/
def Prediction.applyVerify (p : Prediction) (h : Horizon) (r : VerifyResult) : Prediction :=
  match h with
  | .d1 => { p with priceAfter1d := some r.currentPrice, correct1d := some r.correct,
                    return1d := some r.returnPct, verified1d := true }
  | .d7 => { p with priceAfter7d := some r.currentPrice, correct7d := some r.correct,
                    return7d := some r.returnPct, verified7d := true }
  | .d30 => { p with priceAfter30d := some r.currentPrice, correct30d := some r.correct,
                     return30d := some r.returnPct, verified30d := true }

/-- One ledger entry of one horizon's loop in `run_verification`
(verification.py lines 84-103, identically for 7d and 30d): the query filter
keeps entries at least `h.days` old and not yet verified for `h`; a failed
fetch (no truthy price) skips the entry silently; only an exception inside
the `try` body (ZeroDivisionError from `verify_prediction`) is appended to
the error list.  Returns (updated entry, transitioned?, error message). -/
def verifyStep (oracle : String → StockData) (now : ℤ) (h : Horizon) (p : Prediction) :
    Prediction × Bool × Option String :=
  if p.predictionDate ≤ now - h.days ∧ p.verifiedH h = false then
    match truthyQ (oracle p.ticker).price with
    | none => (p, false, none)
    | some cp =>
      match verifyPrediction p cp with
      | none => (p, false, some (h.tag ++ " " ++ p.ticker ++ ": division by zero"))
      | some r => (p.applyVerify h r, true, none)
  else (p, false, none)

/-- One horizon's pass over the whole ledger.  The Python loop carries no
cross-entry state besides the counter and the error list, so it is a map
over entries plus a transition count and the collected error messages. -/
def verifyPass (oracle : String → StockData) (now : ℤ) (h : Horizon)
    (l : List Prediction) : List Prediction × ℕ × List String :=
  (l.map (fun p => (verifyStep oracle now h p).1),
   (l.filter (fun p => (verifyStep oracle now h p).2.1)).length,
   l.filterMap (fun p => (verifyStep oracle now h p).2.2))

/-- Summary returned by `run_verification` together with the updated ledger. -/
structure RunResult where
  ledger : List Prediction
  verified1d : ℕ
  verified7d : ℕ
  verified30d : ℕ
  errors : List String
deriving DecidableEq

/-- `run_verification` (verification.py lines 68-154): the 1d, 7d and 30d
passes run in sequence over the same session's ledger. -/
def runVerification (oracle : String → StockData) (now : ℤ)
    (l : List Prediction) : RunResult :=
  let r1 := verifyPass oracle now .d1 l
  let r7 := verifyPass oracle now .d7 r1.1
  let r30 := verifyPass oracle now .d30 r7.1
  { ledger := r30.1, verified1d := r1.2.1, verified7d := r7.2.1,
    verified30d := r30.2.1, errors := r1.2.2 ++ r7.2.2 ++ r30.2.2 }

/-- The per-entry composite of the three horizon steps of one
`run_verification` call. -/
def stepEntry (oracle : String → StockData) (now : ℤ) (p : Prediction) : Prediction :=
  (verifyStep oracle now .d30
    ((verifyStep oracle now .d7 ((verifyStep oracle now .d1 p).1)).1)).1

/-! ## Statistics aggregator and unlock gate
(`update_verification_stats`, verification.py lines 157-222) -/

/-- Entries verified at horizon `h`
(`db.query(Prediction).filter(Prediction.verified_h == True)`). -/
def verifiedAt (h : Horizon) (l : List Prediction) : List Prediction :=
  l.filter (fun p => p.verifiedH h)

/-- Of the verified entries, those whose `correct_h` is truthy
(`[p for p in verified_h if p.correct_h]`). -/
def correctAt (h : Horizon) (l : List Prediction) : List Prediction :=
  (verifiedAt h l).filter (fun p => p.correctH h = some true)

/-- The accuracy value `len(correct_h) / len(verified_h) * 100` before
storage; the code only reads it when the verified list is non-empty. -/
def rawAccuracy (h : Horizon) (l : List Prediction) : ℚ :=
  ((correctAt h l).length : ℚ) / ((verifiedAt h l).length : ℚ) * 100

/-- The generator `(p.return_h for p in verified_h if p.return_h)`: the
truthiness test keeps only non-null, non-zero returns. -/
def truthyReturns (h : Horizon) (l : List Prediction) : List ℚ :=
  (verifiedAt h l).filterMap (fun p => truthyQ (p.returnH h))

/-- `avg_return_h = sum(p.return_h for p in verified_h if p.return_h) /
len(verified_h)`: the denominator is the count of ALL verified entries, not
of the entries contributing to the numerator. -/
def rawAvgReturn (h : Horizon) (l : List Prediction) : ℚ :=
  (truthyReturns h l).sum / ((verifiedAt h l).length : ℚ)

/-- The storage pattern `round(x, k) if x else None` on a nullable value. -/
def storeTruthy (r : ℚ → ℚ) (x : Option ℚ) : Option ℚ :=
  match x with
  | some a => if a = 0 then none else some (r a)
  | none => none

/-- `accuracy_h` as stored on the snapshot: the value is None when the
verified list is empty, and `round(accuracy_h, 1) if accuracy_h else None`
also stores None when the accuracy is exactly 0. -/
def storedAccuracy (h : Horizon) (l : List Prediction) : Option ℚ :=
  storeTruthy round1
    (if (verifiedAt h l).length = 0 then none else some (rawAccuracy h l))

/-- `avg_return_h` as stored on the snapshot (same truthiness storage with
`round(_, 2)`). -/
def storedAvgReturn (h : Horizon) (l : List Prediction) : Option ℚ :=
  storeTruthy round2
    (if (verifiedAt h l).length = 0 then none else some (rawAvgReturn h l))

/-- Content of the three `unlock_reason` f-strings (verification.py lines
192-196), as a tagged value. -/
inductive UnlockReason where
  | achieved (accuracy : ℚ) (count : ℕ)
  | accuracyShortfall (accuracy : ℚ) (count : ℕ)
  | needMore (remaining : ℕ) (count : ℕ)
deriving DecidableEq

/-- The unlock decision (verification.py lines 185-196) as a function of the
7-day verified count and the raw accuracy value.  When `count ≥ 50` the
verified list is non-empty, so `accuracy_7d` is `some rawAcc` and the Python
truthiness test `accuracy_7d and accuracy_7d >= 55` is
`rawAcc ≠ 0 ∧ 55 ≤ rawAcc`. -/
def unlockDecision (count : ℕ) (rawAcc : ℚ) : Bool × UnlockReason :=
  if 50 ≤ count then
    if rawAcc ≠ 0 ∧ 55 ≤ rawAcc then (true, .achieved rawAcc count)
    else (false, .accuracyShortfall rawAcc count)
  else (false, .needMore (50 - count) count)

/-- models/prediction.py `VerificationStats` (computed fields only). -/
structure VerificationStats where
  totalPredictions : ℕ
  verified1dCount : ℕ
  correct1dCount : ℕ
  accuracy1d : Option ℚ
  avgReturn1d : Option ℚ
  verified7dCount : ℕ
  correct7dCount : ℕ
  accuracy7d : Option ℚ
  avgReturn7d : Option ℚ
  verified30dCount : ℕ
  correct30dCount : ℕ
  accuracy30d : Option ℚ
  avgReturn30d : Option ℚ
  hypotheticalReturnTotal : Option ℚ
  isUnlocked : Bool
  unlockReason : UnlockReason
deriving DecidableEq

/-- `update_verification_stats` (verification.py lines 157-222), as a pure
function of the ledger; each call appends this snapshot. -/
def updateVerificationStats (l : List Prediction) : VerificationStats :=
  let u := unlockDecision (verifiedAt .d7 l).length (rawAccuracy .d7 l)
  { totalPredictions := l.length
    verified1dCount := (verifiedAt .d1 l).length
    correct1dCount := (correctAt .d1 l).length
    accuracy1d := storedAccuracy .d1 l
    avgReturn1d := storedAvgReturn .d1 l
    verified7dCount := (verifiedAt .d7 l).length
    correct7dCount := (correctAt .d7 l).length
    accuracy7d := storedAccuracy .d7 l
    avgReturn7d := storedAvgReturn .d7 l
    verified30dCount := (verifiedAt .d30 l).length
    correct30dCount := (correctAt .d30 l).length
    accuracy30d := storedAccuracy .d30 l
    avgReturn30d := storedAvgReturn .d30 l
    hypotheticalReturnTotal := storeTruthy round2
      (if (verifiedAt .d7 l).length = 0 then none else some (truthyReturns .d7 l).sum)
    isUnlocked := u.1
    unlockReason := u.2 }

/-- Per-horizon accessor for the stored accuracy. -/
def VerificationStats.accuracyAt (s : VerificationStats) : Horizon → Option ℚ
  | .d1 => s.accuracy1d
  | .d7 => s.accuracy7d
  | .d30 => s.accuracy30d

/-- Per-horizon accessor for the stored average return. -/
def VerificationStats.avgReturnAt (s : VerificationStats) : Horizon → Option ℚ
  | .d1 => s.avgReturn1d
  | .d7 => s.avgReturn7d
  | .d30 => s.avgReturn30d

/-- Per-horizon accessor for the verified count. -/
def VerificationStats.verifiedCountAt (s : VerificationStats) : Horizon → ℕ
  | .d1 => s.verified1dCount
  | .d7 => s.verified7dCount
  | .d30 => s.verified30dCount

/-- Per-horizon accessor for the correct count. -/
def VerificationStats.correctCountAt (s : VerificationStats) : Horizon → ℕ
  | .d1 => s.correct1dCount
  | .d7 => s.correct7dCount
  | .d30 => s.correct30dCount

/-! ## Technical range position (services/technicals.py) -/

/-- `get_range_signal` (technicals.py lines 138-157). -/
def getRangeSignal (pricePct : ℚ) : String × ℚ :=
  if 90 ≤ pricePct then ("Near 52w High", -(30/100))
  else if 70 ≤ pricePct then ("Upper Range", 20/100)
  else if pricePct ≤ 10 then ("Near 52w Low", 30/100)
  else if pricePct ≤ 30 then ("Lower Range", -(20/100))
  else ("Mid Range", 0)

/-- The 52-week block of `calc_technicals` (technicals.py lines 184-191):
`hist1y`, when present, is summarized by (max High, min Low).  Python float
division raises ZeroDivisionError when `high_52w - low_52w` is zero —
`calc_technicals` has no handler for it, so it propagates out (modelled as
`.error`); only a missing 1-year history yields the `None` position. -/
def priceVs52w (currentPrice : ℚ) (hist1y : Option (ℚ × ℚ)) :
    Except String (Option ℚ) :=
  match hist1y with
  | none => Except.ok none
  | some (high52w, low52w) =>
      if high52w - low52w = 0 then Except.error "ZeroDivisionError"
      else Except.ok (some ((currentPrice - low52w) / (high52w - low52w) * 100))

/-- Range sub-signal selection of `calc_technicals` (technicals.py line 196):
`("N/A", 0) if price_vs_52w is None else get_range_signal(price_vs_52w)`. -/
def rangeComponent (currentPrice : ℚ) (hist1y : Option (ℚ × ℚ)) :
    Except String (String × ℚ) :=
  match priceVs52w currentPrice hist1y with
  | Except.error e => Except.error e
  | Except.ok none => Except.ok ("N/A", 0)
  | Except.ok (some pct) => Except.ok (getRangeSignal pct)

/-- The weighted technical score of `calc_technicals` (technicals.py lines
199-204) as seen from the range component: `0.3*rsi + 0.5*sma + 0.2*range`;
an exception from the range block aborts the whole evaluation. -/
def technicalScoreWithRange (rsiScore smaScore currentPrice : ℚ)
    (hist1y : Option (ℚ × ℚ)) : Except String ℚ :=
  Except.map
    (fun rc => rsiScore * (30/100) + smaScore * (50/100) + rc.2 * (20/100))
    (rangeComponent currentPrice hist1y)

/-! ## Sentiment analyzer (services/sentiment.py) -/

/-- `POSITIVE_WORDS`. -/
def POSITIVE_WORDS : List String :=
  ["surge", "soar", "jump", "rally", "boom", "breakout", "record", "best",
   "beat", "exceed", "outperform", "upgrade", "bullish", "gain", "profit",
   "growth", "expand", "rise", "climb", "advance", "recover", "rebound",
   "up", "higher", "positive", "strong", "good", "better", "improve",
   "increase", "win", "success", "opportunity", "optimistic", "confident",
   "buy", "accumulate", "overweight", "recommend", "approve", "launch",
   "innovation", "breakthrough", "milestone", "partnership", "deal"]

/-- `NEGATIVE_WORDS`. -/
def NEGATIVE_WORDS : List String :=
  ["crash", "plunge", "tank", "collapse", "crisis", "disaster", "worst",
   "miss", "fail", "downgrade", "bearish", "loss", "decline", "drop",
   "fall", "sink", "tumble", "slump", "selloff", "sell-off", "warning",
   "down", "lower", "negative", "weak", "bad", "worse", "concern",
   "decrease", "cut", "reduce", "risk", "threat", "uncertainty", "fear",
   "sell", "underweight", "avoid", "reject", "delay", "lawsuit", "fraud",
   "investigation", "recall", "layoff", "layoffs", "restructure"]

/-- `AMPLIFIERS`. -/
def AMPLIFIERS : List String :=
  ["very", "extremely", "significantly", "sharply", "dramatically",
   "massive", "huge", "major", "big", "substantial", "record"]

/-- `NEGATORS`. -/
def NEGATORS : List String :=
  ["not", "no", "never", "neither", "without", "lack", "fail", "failed",
   "barely", "hardly", "unlikely", "despite"]

/-- The punctuation characters of `word.strip(".,!?;:'\x22()[]")`. -/
def punctChars : List Char := ".,!?;:\x27\x22()[]".toList

/-- Python's `str.strip(chars)`: drop leading and trailing characters that
are in the set. -/
def stripPunct (w : String) : String :=
  String.mk
    (((w.toList.dropWhile (fun c => punctChars.contains c)).reverse.dropWhile
        (fun c => punctChars.contains c)).reverse)

/-- `text.lower().split()`: lower-case, split on whitespace runs, no empty
tokens. -/
def tokenize (text : String) : List String :=
  (text.toLower.split (fun c => c.isWhitespace)).filter (fun w => w ≠ "")

/-- `score_sentiment` (sentiment.py lines 47-93).  Amplifier/negator presence
is tested on the raw tokens; lexicon counting is on punctuation-stripped
tokens, with `elif` giving the positive lexicon precedence. -/
def scoreSentiment (text : String) : ℚ :=
  if text = "" then 0
  else
    let words := tokenize text
    let amplifierPresent := words.any (fun w => AMPLIFIERS.contains w)
    let negatorPresent := words.any (fun w => NEGATORS.contains w)
    let cleaned := words.map stripPunct
    let positiveCount := (cleaned.filter (fun w => POSITIVE_WORDS.contains w)).length
    let negativeCount :=
      (cleaned.filter
        (fun w => !(POSITIVE_WORDS.contains w) && NEGATIVE_WORDS.contains w)).length
    let total := positiveCount + negativeCount
    if total = 0 then 0
    else
      let score := ((positiveCount : ℚ) - (negativeCount : ℚ)) / (total : ℚ)
      let score := if amplifierPresent then score * (3/2) else score
      let score := if negatorPresent then score * (-(1/2)) else score
      max (-1) (min 1 score)

/-- `aggregate_sentiment` (sentiment.py lines 96-110): arithmetic mean,
`None` on an empty list. -/
def aggregateSentiment (texts : List String) : Option ℚ :=
  if texts = [] then none
  else some ((texts.map scoreSentiment).sum / (texts.length : ℚ))

/-- The caller's use in `calculate_score` (scoring.py line 211):
`aggregate_sentiment(headlines) if headlines else 0.0`. -/
def sentimentForScoring (headlines : List String) : ℚ :=
  if headlines = [] then 0 else (aggregateSentiment headlines).getD 0

/-! ## Prediction logging in digest generation (digest_generator.py) -/

/-- `log_prediction` with the fields `generate_digest` passes
(verification.py lines 15-38, digest_generator.py lines 180-202). -/
def mkLoggedPrediction (pick : StockScoreM) (direction : String) (price : ℚ)
    (day : ℤ) : Prediction :=
  { ticker := pick.ticker, companyName := pick.name, direction := direction,
    score := pick.score, priceAtPrediction := price, predictionDate := day }

/-- The prediction-logging loop of `generate_digest` over one pick list
(digest_generator.py lines 180-202): `if pick.current_price:` skips picks
whose current price is missing or zero. -/
def logPredictionsFor (picks : List StockScoreM) (direction : String)
    (day : ℤ) : List Prediction :=
  picks.filterMap (fun pick =>
    match truthyQ pick.currentPrice with
    | some price => some (mkLoggedPrediction pick direction price day)
    | none => none)

/-! ## Theorems -/

/-- Members of an insertion are the inserted element or members of the list. -/
theorem mem_insertDesc {z x : StockScoreM} {l : List StockScoreM} :
    z ∈ insertDesc x l ↔ z = x ∨ z ∈ l := by
  induction l with
  | nil => simp [insertDesc]
  | cons y ys ih =>
    unfold insertDesc
    split <;> simp [ih] <;> tauto

/-- Insertion preserves descending sortedness. -/
theorem pairwise_insertDesc {x : StockScoreM} {l : List StockScoreM}
    (h : l.Pairwise (fun a b => b.score ≤ a.score)) :
    (insertDesc x l).Pairwise (fun a b => b.score ≤ a.score) := by
  induction l with
  | nil => simp [insertDesc]
  | cons y ys ih =>
    rw [List.pairwise_cons] at h
    simp only [insertDesc]
    by_cases hlt : x.score < y.score
    · rw [if_pos hlt]
      refine List.Pairwise.cons ?_ (ih h.2)
      intro z hz
      rcases mem_insertDesc.1 hz with rfl | hz
      · exact le_of_lt hlt
      · exact h.1 z hz
    · rw [if_neg hlt]
      refine List.Pairwise.cons ?_ (List.Pairwise.cons h.1 h.2)
      intro z hz
      rcases List.mem_cons.1 hz with rfl | hz
      · exact le_of_not_lt hlt
      · exact le_trans (h.1 z hz) (le_of_not_lt hlt)

/-- The stable sort produces a descending list. -/
theorem pairwise_sortDesc (l : List StockScoreM) :
    (sortDesc l).Pairwise (fun a b => b.score ≤ a.score) := by
  induction l with
  | nil => simp [sortDesc]
  | cons y ys ih => exact pairwise_insertDesc ih

/-- C1: for every scoring pass whose data lookups succeed, the composite score
equals the weighted sum of the three sub-scores (weights 0.40/0.30/0.30) times
100 and lies in [-100, 100] whenever each sub-score lies in [-1, 1]; the
signal label is the total deterministic function of the score with exact
thresholds 60, 30, -30, -60 (boundary values exact). -/
theorem composite_score_and_signal_C1 :
    (∀ t s f : ℚ, -1 ≤ t → t ≤ 1 → -1 ≤ s → s ≤ 1 → -1 ≤ f → f ≤ 1 →
      finalScore t s f = (t * (40/100) + s * (30/100) + f * (30/100)) * 100 ∧
      -100 ≤ finalScore t s f ∧ finalScore t s f ≤ 100) ∧
    (∀ x : ℚ,
      (60 ≤ x → getSignalFromScore x = "Strong Buy") ∧
      (30 ≤ x → x < 60 → getSignalFromScore x = "Buy") ∧
      (-30 ≤ x → x < 30 → getSignalFromScore x = "Hold") ∧
      (-60 ≤ x → x < -30 → getSignalFromScore x = "Sell") ∧
      (x < -60 → getSignalFromScore x = "Strong Sell")) ∧
    getSignalFromScore 60 = "Strong Buy" ∧ getSignalFromScore 30 = "Buy" ∧
    getSignalFromScore (-30) = "Hold" ∧ getSignalFromScore (-60) = "Sell" := by
  refine ⟨?_, ?_, by decide, by decide, by decide, by decide⟩
  · intro t s f ht1 ht2 hs1 hs2 hf1 hf2
    refine ⟨by unfold finalScore combinedScore weightTechnical weightSentiment weightFundamental; ring, ?_, ?_⟩
    · unfold finalScore combinedScore weightTechnical weightSentiment weightFundamental
      nlinarith
    · unfold finalScore combinedScore weightTechnical weightSentiment weightFundamental
      nlinarith
  · intro x
    unfold getSignalFromScore
    refine ⟨fun h => ?_, fun h h' => ?_, fun h h' => ?_, fun h h' => ?_, fun h => ?_⟩ <;>
      split_ifs with h1 h2 h3 h4 <;> first | rfl | linarith

/-- Witness for C1 at concrete sub-scores t = 1, s = 1, f = 1 and score 100. -/
theorem composite_score_and_signal_C1_witness :
    finalScore 1 1 1 ≤ 100 ∧ getSignalFromScore 100 = "Strong Buy" :=
  ⟨(composite_score_and_signal_C1.1 1 1 1 (by norm_num) (by norm_num) (by norm_num)
      (by norm_num) (by norm_num) (by norm_num)).2.2,
   (composite_score_and_signal_C1.2.1 100).1 (by norm_num)⟩

/-- C2 counterexample: at `topN = 0` the Python tail slice `sorted[-0:]` is the
whole sorted list, so one negative-score stock yields a sell list of length 1,
exceeding `topN = 0` — the claim "neither returned list ever exceeds topN
entries" is false as stated for every `topN`. -/
theorem select_top_picks_C2_cex :
    ¬ ((selectTopPicks [{ ticker := "A", score := -1 }] 0).2.length ≤ 0) := by
  decide

/-- C2 (amended: for every `topN ≥ 1`): `select_top_picks` drops error-flagged
entries, stably sorts the rest by score descending, returns as buys the
entries among the first `topN` with score > 0 (sorted descending, never
padded) and as sells the entries among the last `topN` positions of that same
descending-sorted list with score < 0, reversed so the most negative score is
first; neither returned list exceeds `topN` entries. -/
theorem select_top_picks_C2 (scores : List StockScoreM) (topN : ℕ) (hN : 1 ≤ topN) :
    (selectTopPicks scores topN).1 =
      ((sortDesc (scores.filter (fun s => s.error = none))).take topN).filter
        (fun s => 0 < s.score) ∧
    (selectTopPicks scores topN).2 =
      (((sortDesc (scores.filter (fun s => s.error = none))).drop
          ((sortDesc (scores.filter (fun s => s.error = none))).length - topN)).filter
        (fun s => s.score < 0)).reverse ∧
    (selectTopPicks scores topN).1.length ≤ topN ∧
    (selectTopPicks scores topN).2.length ≤ topN ∧
    (∀ s ∈ (selectTopPicks scores topN).1, 0 < s.score) ∧
    (∀ s ∈ (selectTopPicks scores topN).2, s.score < 0) ∧
    (selectTopPicks scores topN).1.Pairwise (fun a b => b.score ≤ a.score) ∧
    (selectTopPicks scores topN).2.Pairwise (fun a b => a.score ≤ b.score) := by
  have hN0 : topN ≠ 0 := by omega
  set sorted := sortDesc (scores.filter (fun s => s.error = none)) with hsorted
  have hbuy : (selectTopPicks scores topN).1 =
      (sorted.take topN).filter (fun s => 0 < s.score) := by
    simp [selectTopPicks, hsorted]
  have hsell : (selectTopPicks scores topN).2 =
      ((sorted.drop (sorted.length - topN)).filter (fun s => s.score < 0)).reverse := by
    simp [selectTopPicks, hN0, hsorted]
  refine ⟨hbuy, hsell, ?_, ?_, ?_, ?_, ?_, ?_⟩
  · rw [hbuy]
    calc ((sorted.take topN).filter (fun s => 0 < s.score)).length
        ≤ (sorted.take topN).length := List.length_filter_le _ _
      _ ≤ topN := by simp
  · rw [hsell, List.length_reverse]
    calc ((sorted.drop (sorted.length - topN)).filter (fun s => s.score < 0)).length
        ≤ (sorted.drop (sorted.length - topN)).length := List.length_filter_le _ _
      _ ≤ topN := by simp [List.length_drop]; omega
  · rw [hbuy]
    intro s hs
    simpa using (List.mem_filter.1 hs).2
  · rw [hsell]
    intro s hs
    rw [List.mem_reverse] at hs
    simpa using (List.mem_filter.1 hs).2
  · rw [hbuy]
    exact List.Pairwise.sublist ((List.filter_sublist _).trans (List.take_sublist _ _))
      (pairwise_sortDesc _)
  · rw [hsell, List.pairwise_reverse]
    exact List.Pairwise.sublist ((List.filter_sublist _).trans (List.drop_sublist _ _))
      (pairwise_sortDesc _)

/-- Witness for C2 at a concrete two-stock universe and `topN = 1`. -/
theorem select_top_picks_C2_witness :
    (selectTopPicks [{ ticker := "A", score := 5 }, { ticker := "B", score := -7 }] 1).1.length ≤ 1 ∧
    (selectTopPicks [{ ticker := "A", score := 5 }, { ticker := "B", score := -7 }] 1).2.length ≤ 1 :=
  ⟨(select_top_picks_C2 _ 1 (by norm_num)).2.2.1,
   (select_top_picks_C2 _ 1 (by norm_num)).2.2.2.1⟩

/-- C3 counterexample: the stored realized return is rounded to two decimals
(`round(actual_return, 2)`, verification.py line 63), so a buy predicted at
price 3 and verified at price 4 stores 33.33, not the exact
returnPct = 100/3 the claim states. -/
theorem verify_prediction_C3_cex :
    (verifyPrediction { direction := "buy", priceAtPrediction := 3 } 4).map
        (fun r => r.returnPct) = some (3333/100) ∧
    (3333 : ℚ)/100 ≠ 100/3 := by
  constructor
  · norm_num [verifyPrediction, round2, roundHalfEven]
  · norm_num

/-- C3 (amended: the stored realized return is the percentage rounded to two
decimals): for every prediction with nonzero price_at_prediction and every
current price, with priceChange = currentPrice − priceAtPrediction and
returnPct = priceChange / priceAtPrediction × 100, direction "buy" yields
correct ⟺ priceChange > 0 with realized return round2(returnPct), and any
other direction (sell) yields correct ⟺ priceChange < 0 with realized
return round2(−returnPct); price 100 at prediction and 110 at the horizon
gives (correct = true, return = +10.0) for buy and (correct = false,
return = -10.0) for sell, exactly. -/
theorem verify_prediction_C3 (pred : Prediction) (cp : ℚ)
    (hp : pred.priceAtPrediction ≠ 0) :
    (pred.direction = "buy" →
      verifyPrediction pred cp = some
        { correct := decide (0 < cp - pred.priceAtPrediction),
          returnPct := round2 ((cp - pred.priceAtPrediction) / pred.priceAtPrediction * 100),
          currentPrice := cp }) ∧
    (pred.direction ≠ "buy" →
      verifyPrediction pred cp = some
        { correct := decide (cp - pred.priceAtPrediction < 0),
          returnPct := round2 (-((cp - pred.priceAtPrediction) / pred.priceAtPrediction * 100)),
          currentPrice := cp }) ∧
    verifyPrediction { direction := "buy", priceAtPrediction := 100 } 110
      = some { correct := true, returnPct := 10, currentPrice := 110 } ∧
    verifyPrediction { direction := "sell", priceAtPrediction := 100 } 110
      = some { correct := false, returnPct := -10, currentPrice := 110 } := by
  refine ⟨?_, ?_, ?_, ?_⟩
  · intro hb
    simp [verifyPrediction, hp, hb]
  · intro hb
    simp [verifyPrediction, hp, hb]
  · norm_num [verifyPrediction, round2, roundHalfEven]
  · norm_num [verifyPrediction, round2, roundHalfEven]
    decide

/-- Witness for C3 at the claim's own scenario (buy at 100, verified at 110). -/
theorem verify_prediction_C3_witness :
    verifyPrediction { direction := "buy", priceAtPrediction := 100 } 110
      = some { correct := true, returnPct := 10, currentPrice := 110 } :=
  (verify_prediction_C3 { direction := "buy", priceAtPrediction := 100 } 110
    (by norm_num)).2.2.1

/-- A successful verification sets the horizon's verified flag. -/
theorem applyVerify_verifiedH (p : Prediction) (h : Horizon) (r : VerifyResult) :
    (p.applyVerify h r).verifiedH h = true := by
  cases h <;> simp [Prediction.applyVerify, Prediction.verifiedH]

/-- A verification step never changes the entry's identity fields. -/
theorem verifyStep_meta (o : String → StockData) (n : ℤ) (h : Horizon) (p : Prediction) :
    ((verifyStep o n h p).1).ticker = p.ticker ∧
    ((verifyStep o n h p).1).direction = p.direction ∧
    ((verifyStep o n h p).1).priceAtPrediction = p.priceAtPrediction ∧
    ((verifyStep o n h p).1).predictionDate = p.predictionDate := by
  unfold verifyStep
  split
  · split
    · simp
    · split
      · simp
      · cases h <;> simp [Prediction.applyVerify]
  · simp

/-- A verification step for one horizon never touches another horizon's
field group. -/
theorem verifyStep_hFields_ne (o : String → StockData) (n : ℤ)
    (h h' : Horizon) (hne : h' ≠ h) (p : Prediction) :
    ((verifyStep o n h p).1).hFields h' = p.hFields h' := by
  unfold verifyStep
  split
  · split
    · simp
    · split
      · simp
      · cases h <;> cases h' <;>
          simp_all [Prediction.applyVerify, Prediction.hFields,
            Prediction.priceAfterH, Prediction.verifiedH, Prediction.correctH,
            Prediction.returnH]
  · simp

/-- An entry already verified for a horizon is skipped by that horizon's
pass: nothing is written, no transition is counted, no error is recorded. -/
theorem verifyStep_skip (o : String → StockData) (n : ℤ) (h : Horizon)
    {p : Prediction} (hv : p.verifiedH h = true) :
    verifyStep o n h p = (p, false, none) := by
  simp [verifyStep, hv]

/-- Applying the same horizon step twice: the second application leaves the
entry unchanged and counts no transition. -/
theorem verifyStep_fix (o : String → StockData) (n : ℤ) (h : Horizon) (p : Prediction) :
    (verifyStep o n h ((verifyStep o n h p).1)).1 = (verifyStep o n h p).1 ∧
    (verifyStep o n h ((verifyStep o n h p).1)).2.1 = false := by
  by_cases hc : p.predictionDate ≤ n - h.days ∧ p.verifiedH h = false
  · cases htp : truthyQ (o p.ticker).price with
    | none =>
      have h1 : verifyStep o n h p = (p, false, none) := by
        unfold verifyStep
        rw [if_pos hc, htp]
      simp [h1]
    | some cp =>
      cases hvp : verifyPrediction p cp with
      | none =>
        have h1 : verifyStep o n h p =
            (p, false, some (h.tag ++ " " ++ p.ticker ++ ": division by zero")) := by
          unfold verifyStep
          rw [if_pos hc, htp]
          simp only []
          rw [hvp]
        simp [h1]
      | some r =>
        have h1 : verifyStep o n h p = (p.applyVerify h r, true, none) := by
          unfold verifyStep
          rw [if_pos hc, htp]
          simp only []
          rw [hvp]
        simp [h1, verifyStep_skip o n h (applyVerify_verifiedH p h r)]
  · have h1 : verifyStep o n h p = (p, false, none) := by
      unfold verifyStep
      rw [if_neg hc]
    simp [h1]

/-- A step for one horizon leaves another horizon's verified flag alone. -/
theorem verifyStep_verifiedH_ne (o : String → StockData) (n : ℤ) (h h' : Horizon)
    (hne : h' ≠ h) (p : Prediction) :
    ((verifyStep o n h p).1).verifiedH h' = p.verifiedH h' := by
  have hf := verifyStep_hFields_ne o n h h' hne p
  simpa [Prediction.hFields] using congrArg (fun t => t.2.1) hf

/-- A horizon step that left an entry unchanged without a transition does the
same on any entry that agrees with it on the fields the step reads (ticker,
price at prediction, date, and that horizon's verified flag). -/
theorem verifyStep_noop_congr (o : String → StockData) (n : ℤ) (h : Horizon)
    {x q : Prediction}
    (ht : q.ticker = x.ticker) (hpa : q.priceAtPrediction = x.priceAtPrediction)
    (hd : q.predictionDate = x.predictionDate) (hv : q.verifiedH h = x.verifiedH h)
    (hx2 : (verifyStep o n h x).2.1 = false) :
    (verifyStep o n h q).1 = q ∧ (verifyStep o n h q).2.1 = false := by
  by_cases hc : x.predictionDate ≤ n - h.days ∧ x.verifiedH h = false
  · have hcq : q.predictionDate ≤ n - h.days ∧ q.verifiedH h = false := by
      rw [hd, hv]; exact hc
    cases htp : truthyQ (o x.ticker).price with
    | none =>
      have hq : verifyStep o n h q = (q, false, none) := by
        unfold verifyStep
        rw [if_pos hcq, ht, htp]
      simp [hq]
    | some cp =>
      have hz : x.priceAtPrediction = 0 := by
        by_contra hnz
        cases hvp : verifyPrediction x cp with
        | none =>
          unfold verifyPrediction at hvp
          rw [if_neg hnz] at hvp
          split at hvp <;> simp_all
        | some r =>
          have hx : verifyStep o n h x = (x.applyVerify h r, true, none) := by
            unfold verifyStep
            rw [if_pos hc, htp]
            simp only []
            rw [hvp]
          rw [hx] at hx2
          simp at hx2
      have hvq : verifyPrediction q cp = none := by
        unfold verifyPrediction
        rw [hpa, hz]
        simp
      have hq : verifyStep o n h q =
          (q, false, some (h.tag ++ " " ++ q.ticker ++ ": division by zero")) := by
        unfold verifyStep
        rw [if_pos hcq, ht, htp]
        simp only []
        rw [hvq]
      simp [hq]
  · have hcq : ¬(q.predictionDate ≤ n - h.days ∧ q.verifiedH h = false) := by
      rw [hd, hv]; exact hc
    have hq : verifyStep o n h q = (q, false, none) := by
      unfold verifyStep
      rw [if_neg hcq]
    simp [hq]

/-- After one composite (1d, then 7d, then 30d) pass over an entry, each
horizon step leaves the result unchanged and counts no transition. -/
theorem stepEntry_fix (o : String → StockData) (n : ℤ) (p : Prediction) :
    ((verifyStep o n .d1 (stepEntry o n p)).1 = stepEntry o n p ∧
      (verifyStep o n .d1 (stepEntry o n p)).2.1 = false) ∧
    ((verifyStep o n .d7 (stepEntry o n p)).1 = stepEntry o n p ∧
      (verifyStep o n .d7 (stepEntry o n p)).2.1 = false) ∧
    ((verifyStep o n .d30 (stepEntry o n p)).1 = stepEntry o n p ∧
      (verifyStep o n .d30 (stepEntry o n p)).2.1 = false) := by
  refine ⟨?_, ?_, ?_⟩
  · -- the 1d step was already applied first; 7d/30d do not disturb its inputs
    have hfix := verifyStep_fix o n .d1 p
    refine verifyStep_noop_congr o n .d1 ?_ ?_ ?_ ?_ hfix.2
    · exact ((verifyStep_meta o n .d30 _).1).trans ((verifyStep_meta o n .d7 _).1)
    · exact ((verifyStep_meta o n .d30 _).2.2.1).trans ((verifyStep_meta o n .d7 _).2.2.1)
    · exact ((verifyStep_meta o n .d30 _).2.2.2).trans ((verifyStep_meta o n .d7 _).2.2.2)
    · exact (verifyStep_verifiedH_ne o n .d30 .d1 (by decide) _).trans
        (verifyStep_verifiedH_ne o n .d7 .d1 (by decide) _)
  · have hfix := verifyStep_fix o n .d7 ((verifyStep o n .d1 p).1)
    refine verifyStep_noop_congr o n .d7 ?_ ?_ ?_ ?_ hfix.2
    · exact (verifyStep_meta o n .d30 _).1
    · exact (verifyStep_meta o n .d30 _).2.2.1
    · exact (verifyStep_meta o n .d30 _).2.2.2
    · exact verifyStep_verifiedH_ne o n .d30 .d7 (by decide) _
  · exact verifyStep_fix o n .d30 _

/-- The composite per-entry step is idempotent. -/
theorem stepEntry_idem (o : String → StockData) (n : ℤ) (p : Prediction) :
    stepEntry o n (stepEntry o n p) = stepEntry o n p := by
  obtain ⟨⟨h1, _⟩, ⟨h7, _⟩, ⟨h30, _⟩⟩ := stepEntry_fix o n p
  show (verifyStep o n .d30
    ((verifyStep o n .d7 ((verifyStep o n .d1 (stepEntry o n p)).1)).1)).1
      = stepEntry o n p
  rw [h1, h7, h30]

/-- Once an entry is verified for a horizon, a composite pass never touches
that horizon's field group. -/
theorem stepEntry_writeOnce (o : String → StockData) (n : ℤ) (h : Horizon)
    {p : Prediction} (hv : p.verifiedH h = true) :
    (stepEntry o n p).hFields h = p.hFields h := by
  cases h with
  | d1 =>
    have e1 : (verifyStep o n .d1 p).1 = p := by rw [verifyStep_skip o n .d1 hv]
    unfold stepEntry
    rw [e1, verifyStep_hFields_ne o n .d30 .d1 (by decide) ((verifyStep o n .d7 p).1)]
    exact verifyStep_hFields_ne o n .d7 .d1 (by decide) p
  | d7 =>
    have ev : ((verifyStep o n .d1 p).1).verifiedH .d7 = true := by
      rw [verifyStep_verifiedH_ne o n .d1 .d7 (by decide) p]; exact hv
    have e7 : (verifyStep o n .d7 ((verifyStep o n .d1 p).1)).1
        = (verifyStep o n .d1 p).1 := by
      rw [verifyStep_skip o n .d7 ev]
    unfold stepEntry
    rw [e7, verifyStep_hFields_ne o n .d30 .d7 (by decide) ((verifyStep o n .d1 p).1)]
    exact verifyStep_hFields_ne o n .d1 .d7 (by decide) p
  | d30 =>
    have ev : ((verifyStep o n .d7 ((verifyStep o n .d1 p).1)).1).verifiedH .d30 = true := by
      rw [verifyStep_verifiedH_ne o n .d7 .d30 (by decide) _,
        verifyStep_verifiedH_ne o n .d1 .d30 (by decide) p]
      exact hv
    have e30 : (verifyStep o n .d30
        ((verifyStep o n .d7 ((verifyStep o n .d1 p).1)).1)).1
          = (verifyStep o n .d7 ((verifyStep o n .d1 p).1)).1 := by
      rw [verifyStep_skip o n .d30 ev]
    unfold stepEntry
    rw [e30, verifyStep_hFields_ne o n .d7 .d30 (by decide) ((verifyStep o n .d1 p).1)]
    exact verifyStep_hFields_ne o n .d1 .d30 (by decide) p

/-- The ledger produced by `run_verification` is the entrywise composite step
(entries are processed independently). -/
theorem runVerification_ledger (o : String → StockData) (n : ℤ) (l : List Prediction) :
    (runVerification o n l).ledger = l.map (stepEntry o n) := by
  simp [runVerification, verifyPass, stepEntry, List.map_map]

/-- A horizon pass over entries whose step is a no-op returns the ledger
unchanged and counts zero transitions. -/
theorem verifyPass_noop (o : String → StockData) (n : ℤ) (h : Horizon)
    {l : List Prediction}
    (hall : ∀ p ∈ l, (verifyStep o n h p).1 = p ∧ (verifyStep o n h p).2.1 = false) :
    (verifyPass o n h l).1 = l ∧ (verifyPass o n h l).2.1 = 0 := by
  constructor
  · calc (verifyPass o n h l).1 = l.map (fun p => (verifyStep o n h p).1) := rfl
      _ = l.map id := List.map_congr_left (fun p hp => (hall p hp).1)
      _ = l := List.map_id l
  · show (l.filter (fun p => (verifyStep o n h p).2.1)).length = 0
    rw [List.length_eq_zero, List.filter_eq_nil_iff]
    intro p hp
    simp [(hall p hp).2]

/-- C6: the verification pass is idempotent and per-horizon write-once: the
ledger is processed entrywise; an entry already verified for a horizon is
skipped by every later pass for that horizon and its
price_after_h/correct_h/return_h are never overwritten; and re-running the
pass with the same clock and price source (no newly matured entries)
produces the identical ledger, zero new transitions for every horizon, and
an unchanged stats snapshot. -/
theorem verification_idempotent_C6 (o : String → StockData) (now : ℤ)
    (l : List Prediction) :
    (runVerification o now l).ledger = l.map (stepEntry o now) ∧
    (∀ p : Prediction, ∀ h : Horizon, p.verifiedH h = true →
      (stepEntry o now p).hFields h = p.hFields h) ∧
    (runVerification o now (runVerification o now l).ledger).ledger
      = (runVerification o now l).ledger ∧
    (runVerification o now (runVerification o now l).ledger).verified1d = 0 ∧
    (runVerification o now (runVerification o now l).ledger).verified7d = 0 ∧
    (runVerification o now (runVerification o now l).ledger).verified30d = 0 ∧
    updateVerificationStats (runVerification o now (runVerification o now l).ledger).ledger
      = updateVerificationStats (runVerification o now l).ledger := by
  have hled := runVerification_ledger o now l
  have hfix : ∀ q ∈ l.map (stepEntry o now), ∀ h : Horizon,
      (verifyStep o now h q).1 = q ∧ (verifyStep o now h q).2.1 = false := by
    intro q hq h
    obtain ⟨p, _, rfl⟩ := List.mem_map.1 hq
    obtain ⟨⟨a1, b1⟩, ⟨a7, b7⟩, ⟨a30, b30⟩⟩ := stepEntry_fix o now p
    cases h
    exacts [⟨a1, b1⟩, ⟨a7, b7⟩, ⟨a30, b30⟩]
  have hL1 := verifyPass_noop o now .d1 (fun q hq => hfix q hq .d1)
  have hL7 := verifyPass_noop o now .d7 (fun q hq => hfix q hq .d7)
  have hL30 := verifyPass_noop o now .d30 (fun q hq => hfix q hq .d30)
  have hledger2 : (runVerification o now (l.map (stepEntry o now))).ledger
      = l.map (stepEntry o now) := by
    show (verifyPass o now .d30 ((verifyPass o now .d7
      ((verifyPass o now .d1 (l.map (stepEntry o now))).1)).1)).1
        = l.map (stepEntry o now)
    rw [hL1.1, hL7.1, hL30.1]
  refine ⟨hled, fun p h hv => stepEntry_writeOnce o now h hv, ?_, ?_, ?_, ?_, ?_⟩
  · rw [hled]
    exact hledger2
  · rw [hled]
    exact hL1.2
  · rw [hled]
    show (verifyPass o now .d7
      ((verifyPass o now .d1 (l.map (stepEntry o now))).1)).2.1 = 0
    rw [hL1.1]
    exact hL7.2
  · rw [hled]
    show (verifyPass o now .d30 ((verifyPass o now .d7
      ((verifyPass o now .d1 (l.map (stepEntry o now))).1)).1)).2.1 = 0
    rw [hL1.1, hL7.1]
    exact hL30.2
  · rw [hled, hledger2]

/-- Witness for C6: a 7-day-verified entry's field group survives a pass. -/
theorem verification_idempotent_C6_witness :
    (stepEntry (fun _ => ({} : StockData)) 10 { verified7d := true }).hFields .d7
      = ({ verified7d := true } : Prediction).hFields .d7 :=
  (verification_idempotent_C6 (fun _ => ({} : StockData)) 10 []).2.1
    { verified7d := true } .d7 rfl

/-- C7 counterexample: a batch with one due, pending entry whose price fetch
fails (the collaborator returns an error object, it does not raise):
`run_verification` returns an EMPTY error list — the fetch failure is never
recorded — while the entry stays pending and unchanged. -/
theorem fetch_failure_C7_cex :
    (runVerification (fun _ => { error := some "No data available" }) 10
      [{ ticker := "AAPL", priceAtPrediction := 100 }]).errors = [] ∧
    (runVerification (fun _ => { error := some "No data available" }) 10
      [{ ticker := "AAPL", priceAtPrediction := 100 }]).ledger
        = [{ ticker := "AAPL", priceAtPrediction := 100 }] := by
  constructor <;> decide

/-- C7 (amended): a per-ticker fetch failure (no truthy price: the fetch
reported an error, or the price is missing or zero) leaves the entry
completely untouched for every horizon — it remains pending for retry — and
since entries are processed independently it never prevents the remaining
entries of the batch from being verified; but the failure is NOT recorded in
the batch error list: `fetch_stock_data` returns failures as error values
instead of raising, and the error list only collects exceptions raised
inside the loop body (the ZeroDivisionError of a zero price_at_prediction). -/
theorem fetch_failure_isolation_C7 (o : String → StockData) (now : ℤ)
    (l : List Prediction) (p : Prediction) (h : Horizon)
    (hfail : truthyQ (o p.ticker).price = none) :
    (verifyStep o now h p).1 = p ∧
    (verifyStep o now h p).2.1 = false ∧
    (verifyStep o now h p).2.2 = none ∧
    stepEntry o now p = p ∧
    (runVerification o now l).ledger = l.map (stepEntry o now) := by
  have hstep : ∀ h' : Horizon, verifyStep o now h' p = (p, false, none) := by
    intro h'
    by_cases hc : p.predictionDate ≤ now - h'.days ∧ p.verifiedH h' = false
    · unfold verifyStep
      rw [if_pos hc, hfail]
    · unfold verifyStep
      rw [if_neg hc]
  refine ⟨by rw [hstep h], by rw [hstep h], by rw [hstep h], ?_,
    runVerification_ledger o now l⟩
  simp [stepEntry, hstep]

/-- Witness for C7 at a concrete failing oracle and pending entry. -/
theorem fetch_failure_isolation_C7_witness :
    (verifyStep (fun _ => { error := some "No data available" }) 10 .d1
      { ticker := "AAPL", priceAtPrediction := 100 }).2.2 = none :=
  (fetch_failure_isolation_C7 (fun _ => { error := some "No data available" }) 10 []
    { ticker := "AAPL", priceAtPrediction := 100 } .d1 (by decide)).2.2.1

/-- The unlock decision is true exactly on count ≥ 50 and accuracy ≥ 55. -/
theorem unlockDecision_unlocked_iff (n : ℕ) (a : ℚ) :
    (unlockDecision n a).1 = true ↔ (50 ≤ n ∧ 55 ≤ a) := by
  by_cases h1 : 50 ≤ n
  · by_cases h2 : a ≠ 0 ∧ 55 ≤ a
    · unfold unlockDecision
      rw [if_pos h1, if_pos h2]
      exact ⟨fun _ => ⟨h1, h2.2⟩, fun _ => rfl⟩
    · unfold unlockDecision
      rw [if_pos h1, if_neg h2]
      refine ⟨fun hft => (Bool.false_ne_true hft).elim, fun hco => ?_⟩
      have hne : a ≠ 0 := fun h0 => by rw [h0] at hco; linarith [hco.2]
      exact (h2 ⟨hne, hco.2⟩).elim
  · unfold unlockDecision
    rw [if_neg h1]
    exact ⟨fun hft => (Bool.false_ne_true hft).elim, fun hco => (h1 hco.1).elim⟩

/-- A locked decision carries one of the two locked reasons, matching the
count test. -/
theorem unlockDecision_reason (n : ℕ) (a : ℚ) :
    (unlockDecision n a).1 = false →
      (50 ≤ n ∧ (unlockDecision n a).2 = UnlockReason.accuracyShortfall a n) ∨
      (n < 50 ∧ (unlockDecision n a).2 = UnlockReason.needMore (50 - n) n) := by
  by_cases h1 : 50 ≤ n
  · by_cases h2 : a ≠ 0 ∧ 55 ≤ a
    · unfold unlockDecision
      rw [if_pos h1, if_pos h2]
      intro h
      simp at h
    · unfold unlockDecision
      rw [if_pos h1, if_neg h2]
      exact fun _ => Or.inl ⟨h1, rfl⟩
  · unfold unlockDecision
    rw [if_neg h1]
    exact fun _ => Or.inr ⟨by omega, rfl⟩

/-- C4: the stats recomputation unlocks iff the 7-day verified count is ≥ 50
AND the 7-day accuracy is ≥ 55.0; otherwise the stored reason states either
the accuracy shortfall or the remaining count needed to reach 50; at the
claim's boundary inputs the decision is (49, 100%) → locked,
(50, 54.9%) → locked, (50, 55.0%) → unlocked. -/
theorem unlock_gate_C4 (l : List Prediction) :
    ((updateVerificationStats l).isUnlocked = true ↔
      50 ≤ (verifiedAt .d7 l).length ∧ 55 ≤ rawAccuracy .d7 l) ∧
    ((updateVerificationStats l).isUnlocked = false →
      (50 ≤ (verifiedAt .d7 l).length ∧ (updateVerificationStats l).unlockReason
        = UnlockReason.accuracyShortfall (rawAccuracy .d7 l) (verifiedAt .d7 l).length) ∨
      ((verifiedAt .d7 l).length < 50 ∧ (updateVerificationStats l).unlockReason
        = UnlockReason.needMore (50 - (verifiedAt .d7 l).length) (verifiedAt .d7 l).length)) ∧
    (unlockDecision 49 100).1 = false ∧
    (unlockDecision 50 (549/10)).1 = false ∧
    (unlockDecision 50 55).1 = true := by
  refine ⟨unlockDecision_unlocked_iff _ _, unlockDecision_reason _ _, ?_, ?_, ?_⟩
  · norm_num [unlockDecision]
  · norm_num [unlockDecision]
  · norm_num [unlockDecision]

/-- Witness for C4: the empty ledger is locked. -/
theorem unlock_gate_C4_witness :
    ¬((updateVerificationStats []).isUnlocked = true) := fun h => by
  have hc := ((unlock_gate_C4 []).1.mp h).1
  simp [verifiedAt] at hc

/-- With verified entries present, the raw accuracy is zero exactly when no
entry is correct. -/
theorem rawAccuracy_eq_zero_iff (h : Horizon) (l : List Prediction)
    (hn : (verifiedAt h l).length ≠ 0) :
    rawAccuracy h l = 0 ↔ (correctAt h l).length = 0 := by
  unfold rawAccuracy
  rw [mul_eq_zero, div_eq_zero_iff]
  constructor
  · rintro ((hc | hd) | h100)
    · exact_mod_cast hc
    · exact absurd (by exact_mod_cast hd) hn
    · norm_num at h100
  · intro hc
    exact Or.inl (Or.inl (by exact_mod_cast hc))

/-- With verified entries present, the raw average return is zero exactly
when the truthy returns sum to zero. -/
theorem rawAvgReturn_eq_zero_iff (h : Horizon) (l : List Prediction)
    (hn : (verifiedAt h l).length ≠ 0) :
    rawAvgReturn h l = 0 ↔ (truthyReturns h l).sum = 0 := by
  unfold rawAvgReturn
  rw [div_eq_zero_iff]
  constructor
  · rintro (hs | hd)
    · exact hs
    · exact absurd (by exact_mod_cast hd) hn
  · exact fun hs => Or.inl hs

/-- The stored accuracy of a horizon. -/
theorem storedAccuracy_spec (h : Horizon) (l : List Prediction) :
    (storedAccuracy h l = none ↔
      (verifiedAt h l).length = 0 ∨ (correctAt h l).length = 0) ∧
    ((correctAt h l).length ≠ 0 →
      storedAccuracy h l = some (round1 (rawAccuracy h l))) := by
  by_cases hn : (verifiedAt h l).length = 0
  · have hc : (correctAt h l).length = 0 := by
      have hle : (correctAt h l).length ≤ (verifiedAt h l).length :=
        List.length_filter_le _ _
      omega
    constructor
    · simp [storedAccuracy, storeTruthy, hn, hc]
    · exact fun hne => absurd hc hne
  · constructor
    · by_cases hz : rawAccuracy h l = 0
      · simp [storedAccuracy, storeTruthy, hn, hz,
          (rawAccuracy_eq_zero_iff h l hn).1 hz]
      · have hcne : (correctAt h l).length ≠ 0 :=
          fun hc => hz ((rawAccuracy_eq_zero_iff h l hn).2 hc)
        simp [storedAccuracy, storeTruthy, hn, hz, hcne]
    · intro hcne
      have hz : rawAccuracy h l ≠ 0 :=
        fun h0 => hcne ((rawAccuracy_eq_zero_iff h l hn).1 h0)
      simp [storedAccuracy, storeTruthy, hn, hz]

/-- The stored average return of a horizon. -/
theorem storedAvgReturn_spec (h : Horizon) (l : List Prediction) :
    (storedAvgReturn h l = none ↔
      (verifiedAt h l).length = 0 ∨ (truthyReturns h l).sum = 0) ∧
    ((verifiedAt h l).length ≠ 0 → (truthyReturns h l).sum ≠ 0 →
      storedAvgReturn h l = some (round2 (rawAvgReturn h l))) := by
  by_cases hn : (verifiedAt h l).length = 0
  · constructor
    · simp [storedAvgReturn, storeTruthy, hn]
    · exact fun hne _ => absurd hn hne
  · constructor
    · by_cases hz : rawAvgReturn h l = 0
      · simp [storedAvgReturn, storeTruthy, hn, hz,
          (rawAvgReturn_eq_zero_iff h l hn).1 hz]
      · have hsne : (truthyReturns h l).sum ≠ 0 :=
          fun hs => hz ((rawAvgReturn_eq_zero_iff h l hn).2 hs)
        simp [storedAvgReturn, storeTruthy, hn, hz, hsne]
    · intro _ hsne
      have hz : rawAvgReturn h l ≠ 0 :=
        fun h0 => hsne ((rawAvgReturn_eq_zero_iff h l hn).1 h0)
      simp [storedAvgReturn, storeTruthy, hn, hz]

/-- C5 (amended: the stored values are rounded, and both accuracy and average
return are stored as null not only when the verified count is 0 but also when
the value itself is 0, because of the Python truthiness storage pattern
`round(x, k) if x else None`; moreover null-return entries are excluded from
the numerator of the average only — the denominator is the count of ALL
verified entries — and zero returns are likewise excluded from the
numerator): for every ledger and every horizon, the snapshot records the
verified and correct counts; accuracy_h = round1(correct/verified×100),
stored as null iff verified = 0 or correct = 0; avg return_h =
round2((sum of non-null non-zero returns of verified entries) / verified
count), stored as null iff verified = 0 or that sum is 0. -/
theorem horizon_stats_C5 (l : List Prediction) (h : Horizon) :
    (updateVerificationStats l).verifiedCountAt h = (verifiedAt h l).length ∧
    (updateVerificationStats l).correctCountAt h = (correctAt h l).length ∧
    ((updateVerificationStats l).accuracyAt h = none ↔
      (verifiedAt h l).length = 0 ∨ (correctAt h l).length = 0) ∧
    ((correctAt h l).length ≠ 0 →
      (updateVerificationStats l).accuracyAt h = some (round1
        (((correctAt h l).length : ℚ) / ((verifiedAt h l).length : ℚ) * 100))) ∧
    ((updateVerificationStats l).avgReturnAt h = none ↔
      (verifiedAt h l).length = 0 ∨ (truthyReturns h l).sum = 0) ∧
    ((verifiedAt h l).length ≠ 0 → (truthyReturns h l).sum ≠ 0 →
      (updateVerificationStats l).avgReturnAt h = some (round2
        ((truthyReturns h l).sum / ((verifiedAt h l).length : ℚ)))) := by
  have hacc : (updateVerificationStats l).accuracyAt h = storedAccuracy h l := by
    cases h <;> rfl
  have havg : (updateVerificationStats l).avgReturnAt h = storedAvgReturn h l := by
    cases h <;> rfl
  have hvc : (updateVerificationStats l).verifiedCountAt h = (verifiedAt h l).length := by
    cases h <;> rfl
  have hcc : (updateVerificationStats l).correctCountAt h = (correctAt h l).length := by
    cases h <;> rfl
  refine ⟨hvc, hcc, ?_, ?_, ?_, ?_⟩
  · rw [hacc]
    exact (storedAccuracy_spec h l).1
  · intro hcne
    rw [hacc, (storedAccuracy_spec h l).2 hcne]
    rfl
  · rw [havg]
    exact (storedAvgReturn_spec h l).1
  · intro hn hs
    rw [havg, (storedAvgReturn_spec h l).2 hn hs]
    rfl

/-- C5 counterexample: one 7-day-verified, incorrect entry — the verified
count is 1, yet the stored accuracy is null (the truthiness storage turns an
accuracy of exactly 0 into None), contradicting "null exactly when the
verified count is 0". -/
theorem horizon_stats_C5_cex :
    (updateVerificationStats
      [{ verified7d := true, correct7d := some false, return7d := some (-5) }]).verified7dCount
        = 1 ∧
    (updateVerificationStats
      [{ verified7d := true, correct7d := some false, return7d := some (-5) }]).accuracy7d
        = none := by
  constructor
  · decide
  · norm_num [updateVerificationStats, storedAccuracy, storeTruthy, rawAccuracy,
      verifiedAt, correctAt, Prediction.verifiedH, Prediction.correctH]

/-- Witness for C5 at a one-entry ledger with a correct verified prediction. -/
theorem horizon_stats_C5_witness :
    (updateVerificationStats
      [{ verified7d := true, correct7d := some true, return7d := some 10 }]).accuracyAt .d7
      = some (round1
        (((correctAt .d7
            [{ verified7d := true, correct7d := some true, return7d := some 10 }]).length : ℚ) /
          ((verifiedAt .d7
            [{ verified7d := true, correct7d := some true, return7d := some 10 }]).length : ℚ)
          * 100)) :=
  (horizon_stats_C5
    [{ verified7d := true, correct7d := some true, return7d := some 10 }] .d7).2.2.2.1
    (by decide)

/-- C8 (code bug): when the 52-week high equals the 52-week low the claim
(and spec §4.2/§7) requires an "N/A" range signal with 0 contribution and no
exception, but `calc_technicals` performs the division anyway and Python
raises ZeroDivisionError, which nothing in `calc_technicals` or
`calculate_score` catches — the evaluation of that ticker aborts (modelled
as `.error`).  The "N/A"/0 path exists only for a missing 1-year history. -/
theorem range_position_C8 :
    rangeComponent 50 (some (50, 50)) = Except.error "ZeroDivisionError" ∧
    technicalScoreWithRange 0 0 50 (some (50, 50))
      = Except.error "ZeroDivisionError" ∧
    rangeComponent 50 none = Except.ok ("N/A", 0) ∧
    technicalScoreWithRange 0 0 50 none = Except.ok 0 := by
  refine ⟨?_, ?_, ?_, ?_⟩ <;>
    norm_num [technicalScoreWithRange, rangeComponent, priceVs52w, Except.map]

/-- A truthy optional float is non-zero. -/
theorem truthyQ_ne_zero {x : Option ℚ} {v : ℚ} (h : truthyQ x = some v) : v ≠ 0 := by
  unfold truthyQ at h
  cases x with
  | none => exact absurd h (by simp)
  | some w =>
    simp only [] at h
    by_cases hw : w = 0
    · rw [if_pos hw] at h
      exact absurd h (by simp)
    · rw [if_neg hw] at h
      have : w = v := by injection h
      rw [← this]
      exact hw

/-- C10: every prediction record created by the digest-generation flow has a
nonzero price_at_prediction (picks with missing or zero current price are
skipped by `if pick.current_price:`), so the division in `verify_prediction`
is well-defined on every ledger entry this flow produces. -/
theorem logged_predictions_nonzero_price_C10 (buys sells : List StockScoreM)
    (day : ℤ) (p : Prediction)
    (hp : p ∈ logPredictionsFor buys "buy" day ++ logPredictionsFor sells "sell" day) :
    p.priceAtPrediction ≠ 0 ∧ ∀ cp : ℚ, (verifyPrediction p cp).isSome = true := by
  have hnz : p.priceAtPrediction ≠ 0 := by
    have hone : ∀ (picks : List StockScoreM) (dir : String),
        p ∈ logPredictionsFor picks dir day → p.priceAtPrediction ≠ 0 := by
      intro picks dir hmem
      obtain ⟨pick, _, hmk⟩ := List.mem_filterMap.1 hmem
      cases htp : truthyQ pick.currentPrice with
      | none => rw [htp] at hmk; exact absurd hmk (by simp)
      | some price =>
        rw [htp] at hmk
        simp only [Option.some.injEq] at hmk
        rw [← hmk]
        exact truthyQ_ne_zero htp
    rcases List.mem_append.1 hp with hmem | hmem
    · exact hone buys "buy" hmem
    · exact hone sells "sell" hmem
  refine ⟨hnz, fun cp => ?_⟩
  unfold verifyPrediction
  rw [if_neg hnz]
  split <;> rfl

/-- Witness for C10 at a one-pick digest with current price 100. -/
theorem logged_predictions_nonzero_price_C10_witness :
    (verifyPrediction
      (mkLoggedPrediction { ticker := "A", currentPrice := some 100 } "buy" 100 0) 5).isSome
      = true :=
  (logged_predictions_nonzero_price_C10
    [{ ticker := "A", currentPrice := some 100 }] [] 0
    (mkLoggedPrediction { ticker := "A", currentPrice := some 100 } "buy" 100 0)
    (by decide)).2 5

/-- Every per-headline sentiment score lies in [-1, 1]. -/
theorem scoreSentiment_bounds (text : String) :
    -1 ≤ scoreSentiment text ∧ scoreSentiment text ≤ 1 := by
  unfold scoreSentiment
  split
  · norm_num
  · dsimp only
    split
    · norm_num
    · exact ⟨le_max_left _ _, max_le (by norm_num) (min_le_left _ _)⟩

/-- C9: the sentiment aggregate is the arithmetic mean of per-headline
scores; each per-headline score is (pos−neg)/(pos+neg) over lower-cased
whitespace tokens with leading/trailing punctuation stripped (0 if no
lexicon matches), ×1.5 when any raw token is an amplifier, ×(−0.5) when any
raw token is a negator, clamped to [-1, 1]; an empty headline list yields
null, and the scoring caller turns an empty list into a 0.0 contribution. -/
theorem sentiment_C9 :
    aggregateSentiment [] = none ∧
    (∀ texts : List String, texts ≠ [] →
      aggregateSentiment texts
        = some ((texts.map scoreSentiment).sum / (texts.length : ℚ))) ∧
    (∀ text : String, -1 ≤ scoreSentiment text ∧ scoreSentiment text ≤ 1) ∧
    (∀ text : String, text ≠ "" →
      scoreSentiment text =
        (let words := tokenize text
         let amplifierPresent := words.any (fun w => AMPLIFIERS.contains w)
         let negatorPresent := words.any (fun w => NEGATORS.contains w)
         let cleaned := words.map stripPunct
         let positiveCount :=
           (cleaned.filter (fun w => POSITIVE_WORDS.contains w)).length
         let negativeCount :=
           (cleaned.filter
             (fun w => !(POSITIVE_WORDS.contains w) && NEGATIVE_WORDS.contains w)).length
         let total := positiveCount + negativeCount
         if total = 0 then 0
         else
           let score := ((positiveCount : ℚ) - (negativeCount : ℚ)) / (total : ℚ)
           let score := if amplifierPresent then score * (3/2) else score
           let score := if negatorPresent then score * (-(1/2)) else score
           max (-1) (min 1 score))) ∧
    sentimentForScoring [] = 0 ∧
    (∀ hs : List String, hs ≠ [] →
      sentimentForScoring hs = (hs.map scoreSentiment).sum / (hs.length : ℚ)) := by
  refine ⟨rfl, ?_, scoreSentiment_bounds, ?_, rfl, ?_⟩
  · intro texts h
    simp [aggregateSentiment, h]
  · intro text h
    simp only [scoreSentiment, if_neg h]
  · intro hs h
    simp [sentimentForScoring, aggregateSentiment, h]

/-- Witness for C9 at the one-headline list ["up"]. -/
theorem sentiment_C9_witness :
    aggregateSentiment ["up"]
      = some (((["up"] : List String).map scoreSentiment).sum
          / ((["up"] : List String).length : ℚ)) :=
  sentiment_C9.2.1 ["up"] (by decide)

end StockPulse
